import Mathlib

/-!
# SuperBitcoin: chain parameters and application bootstrap

A shallow embedding of `src/config/chainparams.h` (the `CChainParams` profile,
its accessors and its checkpoint map) and of `IBaseApp::BaseInitialize` from
`src/base/base.cpp`, followed by the properties proved about them.

Conventions.
* A C++ member function is a Lean function from the object to the returned
  value paired with the object after the call.
* A `const` member function goes through `CChainParams.constCall`: its body
  reads the whole object and can assign only the `mutable` member.
* Code that can throw returns `Except Exn _`.
* Types whose declarations are in headers outside the two source files
  (`CBlock`, `CPubKey`) are type parameters.
-/

namespace SuperBitcoin

/-! ## Data model (`chainparams.h`) -/

/-- An `unsigned char` / `uint8_t`. -/
abbrev uint8_t := Fin 256

/-- A `uint16_t`. -/
abbrev uint16_t := Fin 65536

/-- A 256-bit digest (`uint256`); only equality on it is used. -/
abbrev uint256 := Fin (2 ^ 256)

/-- A `double`, carried as its 64-bit pattern; no arithmetic on it is modelled. -/
abbrev double := Fin (2 ^ 64)

/-- The struct `CDNSSeedData` (chainparams.h:17-27). -/
structure CDNSSeedData where
  host : String
  supportsServiceBitsFiltering : Bool
  deriving DecidableEq, Repr

/-- The struct `SeedSpec6` (chainparams.h:29-33): `uint8_t addr[16]; uint16_t port`. -/
structure SeedSpec6 where
  addr : Fin 16 → uint8_t
  port : uint16_t

/-- The type `MapCheckpoints` (chainparams.h:35), a `std::map<int, uint256>`:
the bindings in increasing key order. -/
abbrev MapCheckpoints := List (Int × uint256)

/-- The lookup `std::map::find`: the value bound to `k`, if any. -/
def MapCheckpoints.find : MapCheckpoints → Int → Option uint256
  | [], _ => none
  | (k0, v0) :: rest, k => if k0 = k then some v0 else MapCheckpoints.find rest k

/-- The insertion `std::map::insert`: a key already present keeps its binding and
the flag is `false`; otherwise the pair is placed in key order and the flag is `true`. -/
def MapCheckpoints.insert : MapCheckpoints → Int → uint256 → MapCheckpoints × Bool
  | [], k, v => ([(k, v)], true)
  | (k0, v0) :: rest, k, v =>
    if k < k0 then ((k, v) :: (k0, v0) :: rest, true)
    else if k = k0 then ((k0, v0) :: rest, false)
    else ((k0, v0) :: (MapCheckpoints.insert rest k v).1, (MapCheckpoints.insert rest k v).2)

/-- The keys of a `std::map` are strictly increasing along its sequence of bindings. -/
def MapCheckpoints.ordered (m : MapCheckpoints) : Prop :=
  List.Pairwise (fun a b : Int × uint256 => a.1 < b.1) m

/-- The struct `CCheckpointData` (chainparams.h:37-40). -/
structure CCheckpointData where
  mapCheckpoints : MapCheckpoints

/-- The struct `ChainTxData` (chainparams.h:42-47). -/
structure ChainTxData where
  nTime : Int
  nTxCount : Int
  dTxRate : double
  deriving DecidableEq, Repr

/-- The enum `CChainParams::Base58Type` (chainparams.h:67-76), its last enumerator
`MAX_BASE58_TYPES` included. -/
inductive Base58Type where
  | PUBKEY_ADDRESS
  | SCRIPT_ADDRESS
  | SECRET_KEY
  | EXT_PUBLIC_KEY
  | EXT_SECRET_KEY
  | MAX_BASE58_TYPES
  deriving DecidableEq, Repr

/-- The integer value of an enumerator: they are numbered from 0 in declaration order. -/
def Base58Type.toNat : Base58Type → Nat
  | .PUBKEY_ADDRESS => 0
  | .SCRIPT_ADDRESS => 1
  | .SECRET_KEY => 2
  | .EXT_PUBLIC_KEY => 3
  | .EXT_SECRET_KEY => 4
  | .MAX_BASE58_TYPES => 5

/-- Modelled from the spec: one entry of `soft_fork_deployments` (§3 DeploymentWindow);
`Consensus::BIP9Deployment` is declared in params.h, which is not among the sources. -/
structure DeploymentWindow where
  rule_identifier : Nat
  bit_index : Nat
  start_time : Int
  timeout_time : Int
  deriving DecidableEq, Repr

/-- Modelled from the spec: `Consensus::Params` with the consensus constants of §3;
params.h is not among the sources. -/
structure Consensus.Params where
  pow_limit : uint256
  retarget_interval : Int
  target_spacing : Int
  subsidy_halving_interval : Int
  soft_fork_deployments : List DeploymentWindow

/-- The data members of `CChainParams` (chainparams.h:181-199). `base58Prefixes` is the
array `std::vector<unsigned char> base58Prefixes[MAX_BASE58_TYPES]`: a sequence of slots
whose length is fixed by the declaration. -/
structure CChainParams (CBlock CPubKey : Type) where
  nRPCPort : Int
  strDataDir : String
  consensus : Consensus.Params
  pchMessageStart : Fin 4 → uint8_t
  nDefaultPort : Int
  nPruneAfterHeight : Fin (2 ^ 64)
  vSeeds : List CDNSSeedData
  base58Prefixes : List (List uint8_t)
  base58Prefixes_size : base58Prefixes.length = Base58Type.MAX_BASE58_TYPES.toNat
  strNetworkID : String
  genesis : CBlock
  cCheckPointPubKey : CPubKey
  vFixedSeeds : List SeedSpec6
  fMiningRequiresPeers : Bool
  fDefaultConsistencyChecks : Bool
  fRequireStandard : Bool
  fMineBlocksOnDemand : Bool
  checkpointData : CCheckpointData
  chainTxData : ChainTxData

section Profile

variable {CBlock CPubKey : Type}

/-- A call of a `const` member function: the body reads the object and, of the data
members, can assign only `checkpointData`, the one declared `mutable`
(chainparams.h:198). The body returns its result and the checkpoint data it leaves. -/
def CChainParams.constCall {α : Type} (body : CChainParams CBlock CPubKey → α × CCheckpointData)
    (p : CChainParams CBlock CPubKey) : α × CChainParams CBlock CPubKey :=
  ((body p).1, { p with checkpointData := (body p).2 })

/-- A `const` body that only evaluates `return e;`. -/
def CChainParams.returns {α : Type} (e : CChainParams CBlock CPubKey → α)
    (p : CChainParams CBlock CPubKey) : α × CCheckpointData :=
  (e p, p.checkpointData)

/-- The call `std::move(x)` on a `const` object: a cast to `const T&&`, which the
`const CPubKey &` return type binds; nothing is moved from. -/
def std_move {α : Type} (x : α) : α := x

/-- The accessor `DataDir()` (chainparams.h:78-81). -/
def CChainParams.DataDir (p : CChainParams CBlock CPubKey) :=
  p.constCall (CChainParams.returns fun q => q.strDataDir)

/-- The accessor `RPCPort()` (chainparams.h:83-86). -/
def CChainParams.RPCPort (p : CChainParams CBlock CPubKey) :=
  p.constCall (CChainParams.returns fun q => q.nRPCPort)

/-- The accessor `GetConsensus()` (chainparams.h:88-91). -/
def CChainParams.GetConsensus (p : CChainParams CBlock CPubKey) :=
  p.constCall (CChainParams.returns fun q => q.consensus)

/-- The accessor `MessageStart()` (chainparams.h:93-96). -/
def CChainParams.MessageStart (p : CChainParams CBlock CPubKey) :=
  p.constCall (CChainParams.returns fun q => q.pchMessageStart)

/-- The accessor `GetDefaultPort()` (chainparams.h:98-101). -/
def CChainParams.GetDefaultPort (p : CChainParams CBlock CPubKey) :=
  p.constCall (CChainParams.returns fun q => q.nDefaultPort)

/-- The accessor `GenesisBlock()` (chainparams.h:103-106). -/
def CChainParams.GenesisBlock (p : CChainParams CBlock CPubKey) :=
  p.constCall (CChainParams.returns fun q => q.genesis)

/-- The accessor `MiningRequiresPeers()` (chainparams.h:109-112). -/
def CChainParams.MiningRequiresPeers (p : CChainParams CBlock CPubKey) :=
  p.constCall (CChainParams.returns fun q => q.fMiningRequiresPeers)

/-- The accessor `DefaultConsistencyChecks()` (chainparams.h:115-118). -/
def CChainParams.DefaultConsistencyChecks (p : CChainParams CBlock CPubKey) :=
  p.constCall (CChainParams.returns fun q => q.fDefaultConsistencyChecks)

/-- The accessor `RequireStandard()` (chainparams.h:121-124). -/
def CChainParams.RequireStandard (p : CChainParams CBlock CPubKey) :=
  p.constCall (CChainParams.returns fun q => q.fRequireStandard)

/-- The accessor `PruneAfterHeight()` (chainparams.h:126-129). -/
def CChainParams.PruneAfterHeight (p : CChainParams CBlock CPubKey) :=
  p.constCall (CChainParams.returns fun q => q.nPruneAfterHeight)

/-- The accessor `MineBlocksOnDemand()` (chainparams.h:132-135). -/
def CChainParams.MineBlocksOnDemand (p : CChainParams CBlock CPubKey) :=
  p.constCall (CChainParams.returns fun q => q.fMineBlocksOnDemand)

/-- The accessor `NetworkIDString()` (chainparams.h:138-141). -/
def CChainParams.NetworkIDString (p : CChainParams CBlock CPubKey) :=
  p.constCall (CChainParams.returns fun q => q.strNetworkID)

/-- The accessor `DNSSeeds()` (chainparams.h:143-146). -/
def CChainParams.DNSSeeds (p : CChainParams CBlock CPubKey) :=
  p.constCall (CChainParams.returns fun q => q.vSeeds)

/-- The accessor `Base58Prefix(type)` (chainparams.h:148-151), `return base58Prefixes[type];`.
The array is indexed by the enumerator's integer value; `none` stands for an index
outside the array, where the C++ has no defined result. -/
def CChainParams.Base58Prefix (p : CChainParams CBlock CPubKey) (type : Base58Type) :=
  p.constCall (CChainParams.returns fun q => q.base58Prefixes[type.toNat]?)

/-- The accessor `FixedSeeds()` (chainparams.h:153-156). -/
def CChainParams.FixedSeeds (p : CChainParams CBlock CPubKey) :=
  p.constCall (CChainParams.returns fun q => q.vFixedSeeds)

/-- The accessor `Checkpoints()` (chainparams.h:158-161). -/
def CChainParams.Checkpoints (p : CChainParams CBlock CPubKey) :=
  p.constCall (CChainParams.returns fun q => q.checkpointData)

/-- The accessor `TxData()` (chainparams.h:165-168). -/
def CChainParams.TxData (p : CChainParams CBlock CPubKey) :=
  p.constCall (CChainParams.returns fun q => q.chainTxData)

/-- The accessor `GetCheckPointPKey()` (chainparams.h:172-175),
`return std::move(cCheckPointPubKey);`. -/
def CChainParams.GetCheckPointPKey (p : CChainParams CBlock CPubKey) :=
  p.constCall (CChainParams.returns fun q => std_move q.cCheckPointPubKey)

/-! ## Checkpoint admission and deployment windows

`AddCheckPoint` and `UpdateVersionBitsParameters` are declared in chainparams.h
(lines 163 and 170); their bodies are in chainparams.cpp, which is not among the
sources. -/

/-- The error kinds of `verify_and_add` (spec §4.2, §7). -/
inductive CheckpointError where
  | InvalidSignature
  | ConflictingCheckpoint
  deriving DecidableEq, Repr

/-- The error kind of `override_window` (spec §4.3, §7). -/
inductive DeploymentError where
  | UnknownDeployment
  deriving DecidableEq, Repr

/-- Modelled from the spec: the body of `CChainParams::AddCheckPoint`, which is in
chainparams.cpp. After §4.2: with no checkpoint at `height` the pair is inserted and
the call succeeds; with the same hash already there it succeeds and changes nothing;
with a different hash there it fails and changes nothing. -/
def AddCheckPoint_body (height : Int) (hash : uint256) (p : CChainParams CBlock CPubKey) :
    Bool × CCheckpointData :=
  match MapCheckpoints.find p.checkpointData.mapCheckpoints height with
  | none => (true, { mapCheckpoints := (MapCheckpoints.insert p.checkpointData.mapCheckpoints height hash).1 })
  | some h0 => if h0 = hash then (true, p.checkpointData) else (false, p.checkpointData)

/-- The member function `bool AddCheckPoint(int const height, const uint256 hash) const`
(chainparams.h:163) with the body above. -/
def CChainParams.AddCheckPoint (p : CChainParams CBlock CPubKey) (height : Int) (hash : uint256) :
    Bool × CChainParams CBlock CPubKey :=
  p.constCall (AddCheckPoint_body height hash)

/-- Modelled from the spec: `is_height_checkpointed` of §4.2, the read-only lookup in
the checkpoint map returned by `Checkpoints()`. -/
def is_height_checkpointed (p : CChainParams CBlock CPubKey) (height : Int) : Option uint256 :=
  MapCheckpoints.find p.Checkpoints.1.mapCheckpoints height

/-- Modelled from the spec: `verify_and_add` of §4.2; the caller of `AddCheckPoint` that
checks the signature is not among the sources. The signed payload is the pair
(height, block hash); `verify` is the signature scheme (§9: a capability with a
`verify(payload, signature)` operation) and the key is the one `GetCheckPointPKey()`
returns. A signature that does not verify gives `InvalidSignature` and no call of
`AddCheckPoint`; a refused addition gives `ConflictingCheckpoint`. -/
def verify_and_add {Sig : Type} (verify : CPubKey → Int × uint256 → Sig → Bool)
    (p : CChainParams CBlock CPubKey) (height : Int) (block_hash : uint256) (signature : Sig) :
    Except CheckpointError Unit × CChainParams CBlock CPubKey :=
  if verify p.GetCheckPointPKey.1 (height, block_hash) signature then
    if (p.AddCheckPoint height block_hash).1 then (.ok (), (p.AddCheckPoint height block_hash).2)
    else (.error .ConflictingCheckpoint, (p.AddCheckPoint height block_hash).2)
  else (.error .InvalidSignature, p)

/-- Whether a rule identifier is declared among the deployments of the profile. -/
def declared (p : CChainParams CBlock CPubKey) (rule_identifier : Nat) : Bool :=
  p.consensus.soft_fork_deployments.any fun w => decide (w.rule_identifier = rule_identifier)

/-- Modelled from the spec: `override_window` of §4.3, the body of
`CChainParams::UpdateVersionBitsParameters`, which is in chainparams.cpp. An identifier
that is not declared in the profile fails with `UnknownDeployment`; a declared one has
its start and timeout replaced. -/
def override_window (p : CChainParams CBlock CPubKey) (rule_identifier : Nat)
    (new_start new_timeout : Int) : Except DeploymentError Unit × CChainParams CBlock CPubKey :=
  if declared p rule_identifier then
    (.ok (), { p with consensus := { p.consensus with
      soft_fork_deployments := p.consensus.soft_fork_deployments.map fun w =>
        if w.rule_identifier = rule_identifier then
          { w with start_time := new_start, timeout_time := new_timeout }
        else w } })
  else (.error .UnknownDeployment, p)

/-- The member function `void UpdateVersionBitsParameters(Consensus::DeploymentPos d,
int64_t nStartTime, int64_t nTimeout)` (chainparams.h:170) with the body above; it
returns nothing, so a failure is a throw. -/
def CChainParams.UpdateVersionBitsParameters (p : CChainParams CBlock CPubKey) (d : Nat)
    (nStartTime nTimeout : Int) : Except DeploymentError Unit × CChainParams CBlock CPubKey :=
  override_window p d nStartTime nTimeout

/-- The members of `q` other than `checkpointData` have the values they have in `p`. -/
def CChainParams.sameButCheckpoints (p q : CChainParams CBlock CPubKey) : Prop :=
  q.nRPCPort = p.nRPCPort ∧ q.strDataDir = p.strDataDir ∧ q.consensus = p.consensus ∧
  q.pchMessageStart = p.pchMessageStart ∧ q.nDefaultPort = p.nDefaultPort ∧
  q.nPruneAfterHeight = p.nPruneAfterHeight ∧ q.vSeeds = p.vSeeds ∧
  q.base58Prefixes = p.base58Prefixes ∧ q.strNetworkID = p.strNetworkID ∧
  q.genesis = p.genesis ∧ q.cCheckPointPubKey = p.cCheckPointPubKey ∧
  q.vFixedSeeds = p.vFixedSeeds ∧ q.fMiningRequiresPeers = p.fMiningRequiresPeers ∧
  q.fDefaultConsistencyChecks = p.fDefaultConsistencyChecks ∧
  q.fRequireStandard = p.fRequireStandard ∧ q.fMineBlocksOnDemand = p.fMineBlocksOnDemand ∧
  q.chainTxData = p.chainTxData

end Profile

/-! ## Application bootstrap (`base.cpp`) -/

/-- What a C++ call can throw: something derived from `std::exception`, caught by
`catch (const std::exception &e)`, or anything else, caught by `catch (...)`. -/
inductive Exn where
  | std (what : String)
  | other
  deriving DecidableEq, Repr

/-- The steps of `BaseInitialize` that are recorded, in the order they happen: its
calls into code outside the two source files, and what it prints or logs itself. -/
inductive Event where
  | argsInit
  | logConfigure (path : String)
  | logDefault (path : String)
  | coutHelp (message : String)
  | printVersion
  | isDirectory (path : String)
  | logError (message : String)
  | readConfigFile (name : String)
  | chainNameFromCommandLine
  | createChainParams (chain : String)
  | assignChainParams
  deriving DecidableEq, Repr

/-- The collaborators of `BaseInitialize` that are not among the sources: the
`CArgsManager` member functions over its state `A`, the filesystem test, log4cpp, and
the two free functions declared in chainparams.h:207-209. The calls made outside the
`try` block (`Init`, `GetDataDir`, `IsArgSet`, `GetHelpMessage`) return normally; the
ones inside it can throw. -/
structure AppEnv (A P : Type) where
  Init : A → List String → Bool × A
  GetDataDir : A → Bool → String
  IsArgSet : A → String → Bool
  GetHelpMessage : A → String
  GetArg : A → String → String → String
  ReadConfigFile : A → String → Except Exn Unit × A
  is_directory : String → Except Exn Bool
  ChainNameFromCommandLine : A → Except Exn String
  CreateChainParams : String → Except Exn P
  configure : String → Bool
  defaultLogging : String → Bool
  BITCOIN_CONF_FILENAME : String

/-- The static members `cArgs` and `cChainParams` of `IBaseApp` (base.cpp:35-36). -/
structure IBaseApp (A P : Type) where
  cArgs : A
  cChainParams : P

/-- The result of a call: the returned value, the statics after it, and the events. -/
structure Outcome (A P : Type) where
  ret : Bool
  app : IBaseApp A P
  trace : List Event

section Bootstrap

variable {A P : Type}

/-- The free function `Params()` (base.cpp:43-46): the current `cChainParams`. -/
def Params (app : IBaseApp A P) : P := app.cChainParams

/-- The function `IBaseApp::InitializeLogging` (base.cpp:48-95). `configure` is false
when `PropertyConfigurator::configure` throws `ConfigureFailure`; `defaultLogging` is
false when installing the default appenders throws. -/
def IBaseApp.InitializeLogging (env : AppEnv A P) (path : String) : Bool × List Event :=
  if env.configure path then (true, [Event.logConfigure path])
  else if env.defaultLogging path then (true, [Event.logConfigure path, Event.logDefault path])
  else (false, [Event.logConfigure path, Event.logDefault path])

/-- How control leaves the `try` block of `BaseInitialize`: by the `return false` at
base.cpp:156, by falling out of it after the assignment at line 162, or by a throw. -/
inductive TryExit where
  | returnedFalse
  | completed
  | threw (e : Exn)
  deriving DecidableEq, Repr

/-- The `try` block of `BaseInitialize` (base.cpp:150-163), entered with the statics
`app` and the events `t` so far. -/
def IBaseApp.tryBlock (env : AppEnv A P) (app : IBaseApp A P) (t : List Event) :
    TryExit × IBaseApp A P × List Event :=
  let dir := env.GetDataDir app.cArgs false
  let conf := env.GetArg app.cArgs "-conf" env.BITCOIN_CONF_FILENAME
  match env.is_directory dir with
  | .error e => (.threw e, app, t ++ [Event.isDirectory dir])
  | .ok false =>
    (.returnedFalse, app, t ++ [Event.isDirectory dir,
      Event.logError ("Error: Specified data directory \"" ++ env.GetArg app.cArgs "-datadir" "" ++
        "\" does not exist.")])
  | .ok true =>
    let app2 : IBaseApp A P := { app with cArgs := (env.ReadConfigFile app.cArgs conf).2 }
    match (env.ReadConfigFile app.cArgs conf).1 with
    | .error e => (.threw e, app2, t ++ [Event.isDirectory dir, Event.readConfigFile conf])
    | .ok _ =>
      match env.ChainNameFromCommandLine app2.cArgs with
      | .error e =>
        (.threw e, app2, t ++ [Event.isDirectory dir, Event.readConfigFile conf,
          Event.chainNameFromCommandLine])
      | .ok chain =>
        match env.CreateChainParams chain with
        | .error e =>
          (.threw e, app2, t ++ [Event.isDirectory dir, Event.readConfigFile conf,
            Event.chainNameFromCommandLine, Event.createChainParams chain])
        | .ok created =>
          (.completed, { app2 with cChainParams := created },
            t ++ [Event.isDirectory dir, Event.readConfigFile conf,
              Event.chainNameFromCommandLine, Event.createChainParams chain,
              Event.assignChainParams])

/-- The function `IBaseApp::BaseInitialize(argc, argv)` (base.cpp:128-175). -/
def IBaseApp.BaseInitialize (env : AppEnv A P) (app : IBaseApp A P) (argv : List String) :
    Outcome A P :=
  let app1 : IBaseApp A P := { app with cArgs := (env.Init app.cArgs argv).2 }
  if (env.Init app.cArgs argv).1 = false then
    { ret := false, app := app1, trace := [Event.argsInit] }
  else
    let t := Event.argsInit ::
      (IBaseApp.InitializeLogging env (env.GetDataDir app1.cArgs false)).2
    if env.IsArgSet app1.cArgs "help" || env.IsArgSet app1.cArgs "usage" then
      { ret := false, app := app1,
        trace := t ++ [Event.coutHelp (env.GetHelpMessage app1.cArgs)] }
    else if env.IsArgSet app1.cArgs "version" then
      { ret := false, app := app1, trace := t ++ [Event.printVersion] }
    else
      match IBaseApp.tryBlock env app1 t with
      | (.completed, app2, t2) => { ret := true, app := app2, trace := t2 }
      | (.returnedFalse, app2, t2) => { ret := false, app := app2, trace := t2 }
      | (.threw (Exn.std what), app2, t2) =>
        { ret := false, app := app2,
          trace := t2 ++ [Event.logError ("Error: " ++ what ++ ".")] }
      | (.threw Exn.other, app2, t2) =>
        { ret := false, app := app2, trace := t2 ++ [Event.logError "Error: initParams!"] }

/-- The call `BaseInitialize(argv)` on the statics `app` gets as far as
`CreateChainParams(chain)`: the arguments parse, none of `help`, `usage`, `version` is
set, the data directory exists, the configuration file is read without a throw, and
`ChainNameFromCommandLine()` returns `chain`. -/
def IBaseApp.selects (env : AppEnv A P) (app : IBaseApp A P) (argv : List String)
    (chain : String) : Prop :=
  (env.Init app.cArgs argv).1 = true ∧
  env.IsArgSet (env.Init app.cArgs argv).2 "help" = false ∧
  env.IsArgSet (env.Init app.cArgs argv).2 "usage" = false ∧
  env.IsArgSet (env.Init app.cArgs argv).2 "version" = false ∧
  env.is_directory (env.GetDataDir (env.Init app.cArgs argv).2 false) = .ok true ∧
  (env.ReadConfigFile (env.Init app.cArgs argv).2
    (env.GetArg (env.Init app.cArgs argv).2 "-conf" env.BITCOIN_CONF_FILENAME)).1 = .ok () ∧
  env.ChainNameFromCommandLine (env.ReadConfigFile (env.Init app.cArgs argv).2
    (env.GetArg (env.Init app.cArgs argv).2 "-conf" env.BITCOIN_CONF_FILENAME)).2 = .ok chain

deriving instance DecidableEq for Except

instance (env : AppEnv A P) (app : IBaseApp A P) (argv : List String) (chain : String) :
    Decidable (IBaseApp.selects env app argv chain) := by
  unfold IBaseApp.selects
  infer_instance

/-- The events of the `try` block: the data-directory test, the reading of the
configuration file, and the selection and construction of the network profile. -/
def Event.inTryBlock : Event → Bool
  | .isDirectory _ => true
  | .readConfigFile _ => true
  | .chainNameFromCommandLine => true
  | .createChainParams _ => true
  | .assignChainParams => true
  | _ => false

/-! ### A concrete environment

Arguments are kept as the list of their names. It is used to run the definitions on
concrete inputs. -/

/-- A profile whose network identifier is `chain`; the other members are fixed. -/
def sampleParams (chain : String) : CChainParams Unit Unit where
  nRPCPort := 8332
  strDataDir := ""
  consensus := { pow_limit := 0, retarget_interval := 2016, target_spacing := 600,
                 subsidy_halving_interval := 210000,
                 soft_fork_deployments := [{ rule_identifier := 0, bit_index := 28,
                                             start_time := 1199145601,
                                             timeout_time := 1230767999 }] }
  pchMessageStart := fun _ => 0
  nDefaultPort := 8333
  nPruneAfterHeight := 100000
  vSeeds := []
  base58Prefixes := [[0], [5], [128], [4, 136, 178, 30], [4, 136, 173, 228]]
  base58Prefixes_size := rfl
  strNetworkID := chain
  genesis := ()
  cCheckPointPubKey := ()
  vFixedSeeds := []
  fMiningRequiresPeers := true
  fDefaultConsistencyChecks := false
  fRequireStandard := true
  fMineBlocksOnDemand := false
  checkpointData := { mapCheckpoints := [] }
  chainTxData := { nTime := 0, nTxCount := 0, dTxRate := 0 }

/-- An environment: `Init` refuses an argument list containing `"-?"`, the data
directory `"/data"` exists, the chain name follows `-testnet` / `-regtest`, and a
`-chain=other` argument selects a name outside main, test and regtest. -/
def sampleEnv : AppEnv (List String) (CChainParams Unit Unit) where
  Init := fun _ argv => (!argv.contains "-?", argv)
  GetDataDir := fun a _ => if a.contains "-datadir=/missing" then "/missing" else "/data"
  IsArgSet := fun a name => a.contains name
  GetHelpMessage := fun _ => "Usage: sbtcd [options]"
  GetArg := fun _ _ dflt => dflt
  ReadConfigFile := fun a _ => (.ok (), a)
  is_directory := fun path => .ok (path == "/data")
  ChainNameFromCommandLine := fun a =>
    if a.contains "-testnet" && a.contains "-regtest" then
      .error (Exn.std "Invalid combination of -regtest and -testnet.")
    else if a.contains "-regtest" then .ok "regtest"
    else if a.contains "-testnet" then .ok "test"
    else if a.contains "-chain=other" then .ok "other"
    else .ok "main"
  CreateChainParams := fun chain =>
    if chain = "main" ∨ chain = "test" ∨ chain = "regtest" then .ok (sampleParams chain)
    else .error (Exn.std ("CreateChainParams: Unknown chain " ++ chain ++ "."))
  configure := fun _ => true
  defaultLogging := fun _ => true
  BITCOIN_CONF_FILENAME := "sbtc.conf"

/-- A signature scheme to run `verify_and_add` with: the signature of a payload is
the block hash plus the height, as a number. -/
def sampleVerify : Unit → Int × uint256 → Nat → Bool :=
  fun _ payload signature => signature == payload.2.val + payload.1.toNat

/-- The statics before `BaseInitialize`: no arguments, a default profile. -/
def sampleApp : IBaseApp (List String) (CChainParams Unit Unit) where
  cArgs := []
  cChainParams := sampleParams ""

end Bootstrap

/-! ## The checkpoint map -/

theorem MapCheckpoints.find_insert_of_find_none (m : MapCheckpoints) (k : Int) (v : uint256)
    (hnone : MapCheckpoints.find m k = none) :
    MapCheckpoints.find (MapCheckpoints.insert m k v).1 k = some v := by
  induction m with
  | nil => simp [MapCheckpoints.insert, MapCheckpoints.find]
  | cons kv rest ih =>
    obtain ⟨k0, v0⟩ := kv
    simp only [MapCheckpoints.find] at hnone
    split at hnone
    · cases hnone
    · rename_i hk
      simp only [MapCheckpoints.insert]
      split
      · simp [MapCheckpoints.find]
      · split
        · rename_i heq
          exact absurd heq.symm hk
        · simp only [MapCheckpoints.find, if_neg hk]
          exact ih hnone

theorem MapCheckpoints.mem_insert (m : MapCheckpoints) (k : Int) (v : uint256)
    (x : Int × uint256) (hx : x ∈ (MapCheckpoints.insert m k v).1) : x = (k, v) ∨ x ∈ m := by
  induction m with
  | nil =>
    simp only [MapCheckpoints.insert, List.mem_singleton] at hx
    exact Or.inl hx
  | cons kv rest ih =>
    obtain ⟨k0, v0⟩ := kv
    simp only [MapCheckpoints.insert] at hx
    split_ifs at hx with hlt heq
    · rcases List.mem_cons.mp hx with h | h
      · exact Or.inl h
      · exact Or.inr h
    · exact Or.inr hx
    · rcases List.mem_cons.mp hx with h | h
      · exact Or.inr (List.mem_cons.mpr (Or.inl h))
      · rcases ih h with h2 | h2
        · exact Or.inl h2
        · exact Or.inr (List.mem_cons.mpr (Or.inr h2))

theorem MapCheckpoints.insert_ordered (m : MapCheckpoints) (k : Int) (v : uint256)
    (hm : MapCheckpoints.ordered m) : MapCheckpoints.ordered (MapCheckpoints.insert m k v).1 := by
  induction m with
  | nil => simp [MapCheckpoints.insert, MapCheckpoints.ordered]
  | cons kv rest ih =>
    obtain ⟨k0, v0⟩ := kv
    have hm2 := List.pairwise_cons.mp hm
    simp only [MapCheckpoints.insert]
    split_ifs with hlt heq
    · refine List.pairwise_cons.mpr ⟨?_, hm⟩
      intro x hx
      rcases List.mem_cons.mp hx with h | h
      · rw [h]; exact hlt
      · exact lt_trans hlt (hm2.1 x h)
    · exact hm
    · refine List.pairwise_cons.mpr ⟨?_, ih hm2.2⟩
      intro x hx
      rcases MapCheckpoints.mem_insert rest k v x hx with h | h
      · rw [h]
        exact lt_of_le_of_ne (not_lt.mp hlt) (Ne.symm heq)
      · exact hm2.1 x h

theorem MapCheckpoints.insert_of_find_some (m : MapCheckpoints) (k : Int) (v v0 : uint256)
    (hm : MapCheckpoints.ordered m) (hfind : MapCheckpoints.find m k = some v0) :
    MapCheckpoints.insert m k v = (m, false) := by
  induction m with
  | nil => simp [MapCheckpoints.find] at hfind
  | cons kv rest ih =>
    obtain ⟨k1, v1⟩ := kv
    have hm2 := List.pairwise_cons.mp hm
    simp only [MapCheckpoints.find] at hfind
    simp only [MapCheckpoints.insert]
    split_ifs at hfind with hk
    · subst hk
      simp
    · have hmem : ∃ w, (k, w) ∈ rest := by
        clear ih hm hm2
        induction rest with
        | nil => simp [MapCheckpoints.find] at hfind
        | cons kv2 rest2 ih2 =>
          obtain ⟨k2, v2⟩ := kv2
          simp only [MapCheckpoints.find] at hfind
          split_ifs at hfind with hk2
          · exact ⟨v2, by rw [hk2]; exact List.mem_cons_self _ _⟩
          · obtain ⟨w, hw⟩ := ih2 hfind
            exact ⟨w, List.mem_cons_of_mem _ hw⟩
      obtain ⟨w, hw⟩ := hmem
      have hlt : k1 < k := hm2.1 (k, w) hw
      have h1 : ¬ k < k1 := not_lt.mpr (le_of_lt hlt)
      have h2 : ¬ k = k1 := fun h => hk h.symm
      rw [if_neg h1, if_neg h2, ih hm2.2 hfind]

/-! ## Checkpoints, accessors and deployment windows -/

section ProfileTheorems

variable {CBlock CPubKey : Type}

theorem CChainParams.constCall_returns {α : Type} (e : CChainParams CBlock CPubKey → α)
    (p : CChainParams CBlock CPubKey) :
    p.constCall (CChainParams.returns e) = (e p, p) := rfl

theorem CChainParams.AddCheckPoint_of_find_some (p : CChainParams CBlock CPubKey) (height : Int)
    (hash h0 : uint256)
    (hfind : MapCheckpoints.find p.checkpointData.mapCheckpoints height = some h0) :
    p.AddCheckPoint height hash = (decide (h0 = hash), p) := by
  simp only [CChainParams.AddCheckPoint, CChainParams.constCall, AddCheckPoint_body, hfind]
  split_ifs with h <;> simp [h]

theorem CChainParams.find_after_AddCheckPoint (p : CChainParams CBlock CPubKey) (height : Int)
    (hash : uint256) (hok : (p.AddCheckPoint height hash).1 = true) :
    MapCheckpoints.find (p.AddCheckPoint height hash).2.checkpointData.mapCheckpoints height =
      some hash := by
  cases hfind : MapCheckpoints.find p.checkpointData.mapCheckpoints height with
  | none =>
    simp only [CChainParams.AddCheckPoint, CChainParams.constCall, AddCheckPoint_body, hfind]
    exact MapCheckpoints.find_insert_of_find_none _ _ _ hfind
  | some h0 =>
    rw [CChainParams.AddCheckPoint_of_find_some p height hash h0 hfind] at hok ⊢
    simp only [decide_eq_true_eq] at hok
    simpa [hok] using hfind

/-- C1. Conflict law: when `verify_and_add(h, H1, sig1)` has succeeded and `H2 ≠ H1`, a
following `verify_and_add(h, H2, sig2)` with a signature that verifies fails with
`ConflictingCheckpoint` and leaves the profile as it was; with any signature at all it
does not succeed, and `is_height_checkpointed(h)` is still `H1` afterwards. -/
theorem verify_and_add_conflict {Sig : Type} (verify : CPubKey → Int × uint256 → Sig → Bool)
    (p : CChainParams CBlock CPubKey) (h : Int) (H1 H2 : uint256) (sig1 sig2 : Sig)
    (hne : H1 ≠ H2)
    (hfirst : (verify_and_add verify p h H1 sig1).1 = .ok ()) :
    (verify (verify_and_add verify p h H1 sig1).2.GetCheckPointPKey.1 (h, H2) sig2 = true →
      verify_and_add verify (verify_and_add verify p h H1 sig1).2 h H2 sig2 =
        (.error .ConflictingCheckpoint, (verify_and_add verify p h H1 sig1).2)) ∧
    (verify_and_add verify (verify_and_add verify p h H1 sig1).2 h H2 sig2).1 ≠ .ok () ∧
    is_height_checkpointed
      (verify_and_add verify (verify_and_add verify p h H1 sig1).2 h H2 sig2).2 h = some H1 := by
  have hstate : (verify_and_add verify p h H1 sig1).2 = (p.AddCheckPoint h H1).2 ∧
      (p.AddCheckPoint h H1).1 = true := by
    unfold verify_and_add at hfirst ⊢
    split_ifs at hfirst ⊢ with hv hadd
    exact ⟨rfl, hadd⟩
  have hfind := CChainParams.find_after_AddCheckPoint p h H1 hstate.2
  rw [hstate.1]
  generalize (p.AddCheckPoint h H1).2 = p1 at hfind
  have hadd2 := CChainParams.AddCheckPoint_of_find_some p1 h H2 H1 hfind
  have hdec : decide (H1 = H2) = false := by simpa using hne
  rw [hdec] at hadd2
  refine ⟨?_, ?_, ?_⟩
  · intro hv
    simp [verify_and_add, hv, hadd2]
  · unfold verify_and_add
    split_ifs with hv hok
    · rw [hadd2] at hok
      cases hok
    · simp
    · simp
  · have hp : (verify_and_add verify p1 h H2 sig2).2 = p1 := by
      unfold verify_and_add
      split_ifs <;> simp [hadd2]
    rw [hp]
    exact hfind

theorem verify_and_add_conflict_witness :
    (sampleVerify (verify_and_add sampleVerify (sampleParams "main") 100 7 107).2.GetCheckPointPKey.1
        (100, 9) 109 = true →
      verify_and_add sampleVerify (verify_and_add sampleVerify (sampleParams "main") 100 7 107).2
          100 9 109 =
        (.error .ConflictingCheckpoint,
          (verify_and_add sampleVerify (sampleParams "main") 100 7 107).2)) ∧
    (verify_and_add sampleVerify (verify_and_add sampleVerify (sampleParams "main") 100 7 107).2
      100 9 109).1 ≠ .ok () ∧
    is_height_checkpointed
      (verify_and_add sampleVerify (verify_and_add sampleVerify (sampleParams "main") 100 7 107).2
        100 9 109).2 100 = some 7 :=
  verify_and_add_conflict sampleVerify (sampleParams "main") 100 7 9 107 109 (by decide) rfl

/-- C2. Signature gate: when the signature does not verify against the key returned by
`GetCheckPointPKey()`, `verify_and_add(h, H, sig)` fails with `InvalidSignature` and
returns the profile it was given, so the lookup of `h` gives what it gave before. -/
theorem verify_and_add_invalid_signature {Sig : Type}
    (verify : CPubKey → Int × uint256 → Sig → Bool)
    (p : CChainParams CBlock CPubKey) (h : Int) (H : uint256) (sig : Sig)
    (hbad : verify p.GetCheckPointPKey.1 (h, H) sig = false) :
    verify_and_add verify p h H sig = (.error .InvalidSignature, p) ∧
    (verify_and_add verify p h H sig).2.checkpointData.mapCheckpoints =
      p.checkpointData.mapCheckpoints ∧
    is_height_checkpointed (verify_and_add verify p h H sig).2 h = is_height_checkpointed p h := by
  simp [verify_and_add, hbad]

theorem verify_and_add_invalid_signature_witness :
    verify_and_add sampleVerify (sampleParams "main") 100 7 5 =
      (.error .InvalidSignature, sampleParams "main") ∧
    (verify_and_add sampleVerify (sampleParams "main") 100 7 5).2.checkpointData.mapCheckpoints =
      (sampleParams "main").checkpointData.mapCheckpoints ∧
    is_height_checkpointed (verify_and_add sampleVerify (sampleParams "main") 100 7 5).2 100 =
      is_height_checkpointed (sampleParams "main") 100 :=
  verify_and_add_invalid_signature sampleVerify (sampleParams "main") 100 7 5 rfl

/-- C5. Frame of `AddCheckPoint`: for every profile, height and hash, every data member
other than `checkpointData` has the same value after the call as before it. This holds
for every body a `const` member function can have, hence for `AddCheckPoint`. -/
theorem AddCheckPoint_frame
    (body : Int → uint256 → CChainParams CBlock CPubKey → Bool × CCheckpointData)
    (p : CChainParams CBlock CPubKey) (height : Int) (hash : uint256) :
    p.sameButCheckpoints (p.constCall (body height hash)).2 ∧
    p.sameButCheckpoints (p.AddCheckPoint height hash).2 ∧
    { (p.AddCheckPoint height hash).2 with checkpointData := p.checkpointData } = p := by
  refine ⟨?_, ?_, rfl⟩ <;>
  exact ⟨rfl, rfl, rfl, rfl, rfl, rfl, rfl, rfl, rfl, rfl, rfl, rfl, rfl, rfl, rfl, rfl, rfl⟩

/-- C6. Every read accessor of `CChainParams` returns the value of its data member and
leaves the profile as it was, `GetCheckPointPKey` with its `std::move` included; so a
second call returns what the first returned. -/
theorem accessors_pure (p : CChainParams CBlock CPubKey) :
    (p.GetConsensus = (p.consensus, p) ∧
     p.MessageStart = (p.pchMessageStart, p) ∧
     p.GetDefaultPort = (p.nDefaultPort, p) ∧
     p.GenesisBlock = (p.genesis, p) ∧
     p.MiningRequiresPeers = (p.fMiningRequiresPeers, p) ∧
     p.DefaultConsistencyChecks = (p.fDefaultConsistencyChecks, p) ∧
     p.RequireStandard = (p.fRequireStandard, p) ∧
     p.PruneAfterHeight = (p.nPruneAfterHeight, p) ∧
     p.MineBlocksOnDemand = (p.fMineBlocksOnDemand, p) ∧
     p.NetworkIDString = (p.strNetworkID, p) ∧
     p.DNSSeeds = (p.vSeeds, p) ∧
     p.FixedSeeds = (p.vFixedSeeds, p) ∧
     p.Checkpoints = (p.checkpointData, p) ∧
     p.TxData = (p.chainTxData, p) ∧
     p.GetCheckPointPKey = (p.cCheckPointPubKey, p) ∧
     p.DataDir = (p.strDataDir, p) ∧
     p.RPCPort = (p.nRPCPort, p)) ∧
    (p.GetConsensus.2.GetConsensus.1 = p.GetConsensus.1 ∧
     p.MessageStart.2.MessageStart.1 = p.MessageStart.1 ∧
     p.GetDefaultPort.2.GetDefaultPort.1 = p.GetDefaultPort.1 ∧
     p.GenesisBlock.2.GenesisBlock.1 = p.GenesisBlock.1 ∧
     p.MiningRequiresPeers.2.MiningRequiresPeers.1 = p.MiningRequiresPeers.1 ∧
     p.DefaultConsistencyChecks.2.DefaultConsistencyChecks.1 = p.DefaultConsistencyChecks.1 ∧
     p.RequireStandard.2.RequireStandard.1 = p.RequireStandard.1 ∧
     p.PruneAfterHeight.2.PruneAfterHeight.1 = p.PruneAfterHeight.1 ∧
     p.MineBlocksOnDemand.2.MineBlocksOnDemand.1 = p.MineBlocksOnDemand.1 ∧
     p.NetworkIDString.2.NetworkIDString.1 = p.NetworkIDString.1 ∧
     p.DNSSeeds.2.DNSSeeds.1 = p.DNSSeeds.1 ∧
     p.FixedSeeds.2.FixedSeeds.1 = p.FixedSeeds.1 ∧
     p.Checkpoints.2.Checkpoints.1 = p.Checkpoints.1 ∧
     p.TxData.2.TxData.1 = p.TxData.1 ∧
     p.GetCheckPointPKey.2.GetCheckPointPKey.1 = p.GetCheckPointPKey.1) :=
  ⟨⟨rfl, rfl, rfl, rfl, rfl, rfl, rfl, rfl, rfl, rfl, rfl, rfl, rfl, rfl, rfl, rfl, rfl⟩,
   ⟨rfl, rfl, rfl, rfl, rfl, rfl, rfl, rfl, rfl, rfl, rfl, rfl, rfl, rfl, rfl⟩⟩

/-- C7. Deployment override: when no deployment window of the profile carries the rule
identifier, `UpdateVersionBitsParameters` / `override_window` fails with
`UnknownDeployment` and returns the profile it was given. -/
theorem override_window_unknown (p : CChainParams CBlock CPubKey) (rule_identifier : Nat)
    (new_start new_timeout : Int)
    (hundeclared : ∀ w ∈ p.consensus.soft_fork_deployments, w.rule_identifier ≠ rule_identifier) :
    p.UpdateVersionBitsParameters rule_identifier new_start new_timeout =
      (.error .UnknownDeployment, p) ∧
    override_window p rule_identifier new_start new_timeout = (.error .UnknownDeployment, p) := by
  have hdecl : declared p rule_identifier = false := by
    simp only [declared, List.any_eq_false, decide_eq_true_eq]
    exact hundeclared
  simp [CChainParams.UpdateVersionBitsParameters, override_window, hdecl]

theorem override_window_unknown_witness :
    (sampleParams "main").UpdateVersionBitsParameters 3 0 999999999999 =
      (.error .UnknownDeployment, sampleParams "main") ∧
    override_window (sampleParams "main") 3 0 999999999999 =
      (.error .UnknownDeployment, sampleParams "main") :=
  override_window_unknown (sampleParams "main") 3 0 999999999999 (by decide)

/-- C8. Address prefixes: `MAX_BASE58_TYPES` is 5, the profile has exactly five prefix
slots, the five address kinds have the distinct indices 0 to 4, and for each of them
`Base58Prefix` indexes inside the array and returns the slot at the index of the kind. -/
theorem Base58Prefix_in_bounds (p : CChainParams CBlock CPubKey) :
    Base58Type.MAX_BASE58_TYPES.toNat = 5 ∧
    p.base58Prefixes.length = 5 ∧
    [Base58Type.PUBKEY_ADDRESS, Base58Type.SCRIPT_ADDRESS, Base58Type.SECRET_KEY,
      Base58Type.EXT_PUBLIC_KEY, Base58Type.EXT_SECRET_KEY].map Base58Type.toNat =
      [0, 1, 2, 3, 4] ∧
    (∀ type : Base58Type, type ≠ Base58Type.MAX_BASE58_TYPES →
      ∃ hlt : type.toNat < p.base58Prefixes.length,
        p.Base58Prefix type = (some (p.base58Prefixes.get ⟨type.toNat, hlt⟩), p)) := by
  refine ⟨rfl, p.base58Prefixes_size, rfl, ?_⟩
  intro type htype
  have hlt : type.toNat < p.base58Prefixes.length := by
    rw [p.base58Prefixes_size]
    cases type <;> first | exact absurd rfl htype | decide
  refine ⟨hlt, ?_⟩
  rw [CChainParams.Base58Prefix, CChainParams.constCall_returns]
  simp [List.getElem?_eq_getElem hlt]

theorem Base58Prefix_in_bounds_witness :
    (sampleParams "main").Base58Prefix Base58Type.SECRET_KEY =
      (some [128], sampleParams "main") := by
  obtain ⟨hlt, hget⟩ :=
    (Base58Prefix_in_bounds (sampleParams "main")).2.2.2 Base58Type.SECRET_KEY (by decide)
  exact hget.trans rfl

end ProfileTheorems

/-! ## `BaseInitialize` -/

section BootstrapLemmas

variable {A P : Type}

theorem IBaseApp.BaseInitialize_of_selects_ok (env : AppEnv A P) (app : IBaseApp A P)
    (argv : List String) (chain : String) (created : P)
    (hsel : IBaseApp.selects env app argv chain)
    (hcreate : env.CreateChainParams chain = .ok created) :
    (IBaseApp.BaseInitialize env app argv).ret = true ∧
    (IBaseApp.BaseInitialize env app argv).app.cChainParams = created ∧
    Event.assignChainParams ∈ (IBaseApp.BaseInitialize env app argv).trace := by
  obtain ⟨hinit, hhelp, husage, hversion, hdir, hconf, hchain⟩ := hsel
  simp [IBaseApp.BaseInitialize, IBaseApp.tryBlock, hinit, hhelp, husage, hversion, hdir,
    hconf, hchain, hcreate]

theorem IBaseApp.BaseInitialize_of_selects_error (env : AppEnv A P) (app : IBaseApp A P)
    (argv : List String) (chain : String) (e : Exn)
    (hsel : IBaseApp.selects env app argv chain)
    (hcreate : env.CreateChainParams chain = .error e) :
    (IBaseApp.BaseInitialize env app argv).ret = false ∧
    (IBaseApp.BaseInitialize env app argv).app.cChainParams = app.cChainParams ∧
    Event.createChainParams chain ∈ (IBaseApp.BaseInitialize env app argv).trace ∧
    Event.assignChainParams ∉ (IBaseApp.BaseInitialize env app argv).trace := by
  obtain ⟨hinit, hhelp, husage, hversion, hdir, hconf, hchain⟩ := hsel
  cases e <;>
  simp [IBaseApp.BaseInitialize, IBaseApp.tryBlock, hinit, hhelp, husage, hversion, hdir,
    hconf, hchain, hcreate, IBaseApp.InitializeLogging] <;>
  split_ifs <;> simp

theorem IBaseApp.BaseInitialize_cases (env : AppEnv A P) (app : IBaseApp A P)
    (argv : List String) :
    ((IBaseApp.BaseInitialize env app argv).ret = true ∧
      Event.assignChainParams ∈ (IBaseApp.BaseInitialize env app argv).trace ∧
      ∃ chain created, IBaseApp.selects env app argv chain ∧
        env.CreateChainParams chain = .ok created ∧
        (IBaseApp.BaseInitialize env app argv).app.cChainParams = created) ∨
    ((IBaseApp.BaseInitialize env app argv).ret = false ∧
      Event.assignChainParams ∉ (IBaseApp.BaseInitialize env app argv).trace ∧
      (IBaseApp.BaseInitialize env app argv).app.cChainParams = app.cChainParams) := by
  by_cases hinit : (env.Init app.cArgs argv).1 = true
  swap
  · right
    simp [IBaseApp.BaseInitialize, hinit]
  cases hhelp : env.IsArgSet (env.Init app.cArgs argv).2 "help"
  swap
  · right
    simp [IBaseApp.BaseInitialize, hinit, hhelp, IBaseApp.InitializeLogging]
    split_ifs <;> simp
  cases husage : env.IsArgSet (env.Init app.cArgs argv).2 "usage"
  swap
  · right
    simp [IBaseApp.BaseInitialize, hinit, hhelp, husage, IBaseApp.InitializeLogging]
    split_ifs <;> simp
  cases hversion : env.IsArgSet (env.Init app.cArgs argv).2 "version"
  swap
  · right
    simp [IBaseApp.BaseInitialize, hinit, hhelp, husage, hversion, IBaseApp.InitializeLogging]
    split_ifs <;> simp
  have hlog : Event.assignChainParams ∉
      (IBaseApp.InitializeLogging env (env.GetDataDir (env.Init app.cArgs argv).2 false)).2 := by
    simp only [IBaseApp.InitializeLogging]
    split_ifs <;> simp
  rcases hdir : env.is_directory (env.GetDataDir (env.Init app.cArgs argv).2 false)
    with e | b
  · right
    cases e <;>
    simp [IBaseApp.BaseInitialize, IBaseApp.tryBlock, hinit, hhelp, husage, hversion, hdir, hlog]
  cases b
  · right
    simp [IBaseApp.BaseInitialize, IBaseApp.tryBlock, hinit, hhelp, husage, hversion, hdir, hlog]
  rcases hconf : (env.ReadConfigFile (env.Init app.cArgs argv).2
    (env.GetArg (env.Init app.cArgs argv).2 "-conf" env.BITCOIN_CONF_FILENAME)).1 with e | u
  · right
    cases e <;>
    simp [IBaseApp.BaseInitialize, IBaseApp.tryBlock, hinit, hhelp, husage, hversion, hdir,
      hconf, hlog]
  rcases hchain : env.ChainNameFromCommandLine (env.ReadConfigFile (env.Init app.cArgs argv).2
    (env.GetArg (env.Init app.cArgs argv).2 "-conf" env.BITCOIN_CONF_FILENAME)).2
    with e | chain
  · right
    cases e <;>
    simp [IBaseApp.BaseInitialize, IBaseApp.tryBlock, hinit, hhelp, husage, hversion, hdir,
      hconf, hchain, hlog]
  have hsel : IBaseApp.selects env app argv chain :=
    ⟨hinit, hhelp, husage, hversion, hdir, hconf, hchain⟩
  rcases hcreate : env.CreateChainParams chain with e | created
  · right
    have h := IBaseApp.BaseInitialize_of_selects_error env app argv chain e hsel hcreate
    exact ⟨h.1, h.2.2.2, h.2.1⟩
  · left
    have h := IBaseApp.BaseInitialize_of_selects_ok env app argv chain created hsel hcreate
    exact ⟨h.1, h.2.2, chain, created, hsel, hcreate, h.2.1⟩

/-- C3. Unsupported network: when `BaseInitialize` is reached with arguments that
parse, no help, usage or version flag and an existing data directory, and gets the
network name `chain` for which `CreateChainParams` throws, it returns false: the
construction was attempted, nothing is assigned, and the chain parameters are the ones
from before the call. -/
theorem BaseInitialize_unsupported_network (env : AppEnv A P) (app : IBaseApp A P)
    (argv : List String) (chain : String) (e : Exn)
    (hsel : IBaseApp.selects env app argv chain)
    (hunsupported : env.CreateChainParams chain = .error e) :
    (IBaseApp.BaseInitialize env app argv).ret = false ∧
    Params (IBaseApp.BaseInitialize env app argv).app = Params app ∧
    Event.createChainParams chain ∈ (IBaseApp.BaseInitialize env app argv).trace ∧
    Event.assignChainParams ∉ (IBaseApp.BaseInitialize env app argv).trace :=
  IBaseApp.BaseInitialize_of_selects_error env app argv chain e hsel hunsupported

theorem BaseInitialize_unsupported_network_witness :
    (IBaseApp.BaseInitialize sampleEnv sampleApp ["-chain=other"]).ret = false ∧
    Params (IBaseApp.BaseInitialize sampleEnv sampleApp ["-chain=other"]).app =
      Params sampleApp ∧
    Event.createChainParams "other" ∈
      (IBaseApp.BaseInitialize sampleEnv sampleApp ["-chain=other"]).trace ∧
    Event.assignChainParams ∉
      (IBaseApp.BaseInitialize sampleEnv sampleApp ["-chain=other"]).trace :=
  BaseInitialize_unsupported_network sampleEnv sampleApp ["-chain=other"] "other"
    (Exn.std "CreateChainParams: Unknown chain other.") (by decide) rfl

/-- C4, as the code has it. After a `BaseInitialize` that selected `chain1`, a later
`BaseInitialize` that gets as far as `CreateChainParams(chain2)` with a supported
`chain2` returns true and makes `Params()` the profile constructed for `chain2`: the
same profile as before when `chain2` is `chain1`, a replacement otherwise. -/
theorem BaseInitialize_reselect (env : AppEnv A P) (app : IBaseApp A P)
    (argv1 argv2 : List String) (chain1 chain2 : String) (created1 created2 : P)
    (hsel1 : IBaseApp.selects env app argv1 chain1)
    (hcreate1 : env.CreateChainParams chain1 = .ok created1)
    (hsel2 : IBaseApp.selects env (IBaseApp.BaseInitialize env app argv1).app argv2 chain2)
    (hcreate2 : env.CreateChainParams chain2 = .ok created2) :
    (IBaseApp.BaseInitialize env app argv1).ret = true ∧
    Params (IBaseApp.BaseInitialize env app argv1).app = created1 ∧
    (IBaseApp.BaseInitialize env (IBaseApp.BaseInitialize env app argv1).app argv2).ret = true ∧
    Params (IBaseApp.BaseInitialize env (IBaseApp.BaseInitialize env app argv1).app argv2).app =
      created2 ∧
    (chain2 = chain1 →
      Params (IBaseApp.BaseInitialize env (IBaseApp.BaseInitialize env app argv1).app argv2).app =
        Params (IBaseApp.BaseInitialize env app argv1).app) := by
  have h1 := IBaseApp.BaseInitialize_of_selects_ok env app argv1 chain1 created1 hsel1 hcreate1
  have h2 := IBaseApp.BaseInitialize_of_selects_ok env (IBaseApp.BaseInitialize env app argv1).app
    argv2 chain2 created2 hsel2 hcreate2
  refine ⟨h1.1, h1.2.1, h2.1, h2.2.1, ?_⟩
  intro hsame
  subst hsame
  rw [hcreate1] at hcreate2
  simp only [Params]
  rw [h2.2.1, h1.2.1]
  exact (Except.ok.inj hcreate2).symm

theorem BaseInitialize_reselect_witness :
    (IBaseApp.BaseInitialize sampleEnv sampleApp ["-testnet"]).ret = true ∧
    Params (IBaseApp.BaseInitialize sampleEnv sampleApp ["-testnet"]).app = sampleParams "test" ∧
    (IBaseApp.BaseInitialize sampleEnv
      (IBaseApp.BaseInitialize sampleEnv sampleApp ["-testnet"]).app ["-testnet"]).ret = true ∧
    Params (IBaseApp.BaseInitialize sampleEnv
      (IBaseApp.BaseInitialize sampleEnv sampleApp ["-testnet"]).app ["-testnet"]).app =
      sampleParams "test" ∧
    ("test" = "test" →
      Params (IBaseApp.BaseInitialize sampleEnv
        (IBaseApp.BaseInitialize sampleEnv sampleApp ["-testnet"]).app ["-testnet"]).app =
        Params (IBaseApp.BaseInitialize sampleEnv sampleApp ["-testnet"]).app) :=
  BaseInitialize_reselect sampleEnv sampleApp ["-testnet"] ["-testnet"] "test" "test"
    (sampleParams "test") (sampleParams "test") (by decide) rfl (by decide) rfl

/-- C4, as the claim states it, fails: after `BaseInitialize` has selected the main
network, a second `BaseInitialize` with `-testnet` returns true, and `Params()` is the
test profile, which is not the profile selected first. -/
theorem BaseInitialize_reselect_counterexample :
    (IBaseApp.BaseInitialize sampleEnv sampleApp []).ret = true ∧
    (Params (IBaseApp.BaseInitialize sampleEnv sampleApp []).app).NetworkIDString.1 = "main" ∧
    (IBaseApp.BaseInitialize sampleEnv
      (IBaseApp.BaseInitialize sampleEnv sampleApp []).app ["-testnet"]).ret = true ∧
    (Params (IBaseApp.BaseInitialize sampleEnv
      (IBaseApp.BaseInitialize sampleEnv sampleApp []).app ["-testnet"]).app).NetworkIDString.1 =
      "test" ∧
    Params (IBaseApp.BaseInitialize sampleEnv
      (IBaseApp.BaseInitialize sampleEnv sampleApp []).app ["-testnet"]).app ≠
      Params (IBaseApp.BaseInitialize sampleEnv sampleApp []).app := by
  refine ⟨rfl, rfl, rfl, rfl, ?_⟩
  intro h
  have hid := congrArg (fun q : CChainParams Unit Unit => q.strNetworkID) h
  exact absurd hid (by decide)

/-- C9. Outcome of `BaseInitialize`: it returns true exactly when it assigned
`cChainParams`; when it returns true the assigned value is what `CreateChainParams`
returned for the name `ChainNameFromCommandLine()` gave; when it returns false the chain
parameters are the ones from before the call. -/
theorem BaseInitialize_true_iff_assigned (env : AppEnv A P) (app : IBaseApp A P)
    (argv : List String) :
    ((IBaseApp.BaseInitialize env app argv).ret = true ↔
      Event.assignChainParams ∈ (IBaseApp.BaseInitialize env app argv).trace) ∧
    ((IBaseApp.BaseInitialize env app argv).ret = true →
      ∃ chain created, IBaseApp.selects env app argv chain ∧
        env.CreateChainParams chain = .ok created ∧
        Params (IBaseApp.BaseInitialize env app argv).app = created) ∧
    ((IBaseApp.BaseInitialize env app argv).ret = false →
      Params (IBaseApp.BaseInitialize env app argv).app = Params app) := by
  rcases IBaseApp.BaseInitialize_cases env app argv with ⟨hret, hev, hsel⟩ | ⟨hret, hev, hsame⟩
  · refine ⟨⟨fun _ => hev, fun _ => hret⟩, fun _ => hsel, ?_⟩
    intro hfalse
    rw [hret] at hfalse
    cases hfalse
  · refine ⟨⟨?_, fun h => absurd h hev⟩, ?_, fun _ => hsame⟩
    · intro htrue
      rw [hret] at htrue
      cases htrue
    · intro htrue
      rw [hret] at htrue
      cases htrue

theorem BaseInitialize_true_iff_assigned_witness :
    Params (IBaseApp.BaseInitialize sampleEnv sampleApp ["-datadir=/missing"]).app =
      Params sampleApp :=
  (BaseInitialize_true_iff_assigned sampleEnv sampleApp ["-datadir=/missing"]).2.2 rfl

/-- C10. Help, usage and version: when the arguments parse and one of `help`, `usage`,
`version` is set, `BaseInitialize` returns false with the chain parameters untouched and
without any step of the `try` block (no data-directory test, no reading of the
configuration file, no profile construction), whatever the environment is; with `help`
or `usage` set the help message is printed and the version is not. -/
theorem BaseInitialize_help_version (env : AppEnv A P) (app : IBaseApp A P)
    (argv : List String)
    (hinit : (env.Init app.cArgs argv).1 = true)
    (hflag : env.IsArgSet (env.Init app.cArgs argv).2 "help" = true ∨
      env.IsArgSet (env.Init app.cArgs argv).2 "usage" = true ∨
      env.IsArgSet (env.Init app.cArgs argv).2 "version" = true) :
    (IBaseApp.BaseInitialize env app argv).ret = false ∧
    Params (IBaseApp.BaseInitialize env app argv).app = Params app ∧
    (∀ ev ∈ (IBaseApp.BaseInitialize env app argv).trace, ev.inTryBlock = false) ∧
    (env.IsArgSet (env.Init app.cArgs argv).2 "help" = true ∨
        env.IsArgSet (env.Init app.cArgs argv).2 "usage" = true →
      Event.coutHelp (env.GetHelpMessage (env.Init app.cArgs argv).2) ∈
        (IBaseApp.BaseInitialize env app argv).trace ∧
      Event.printVersion ∉ (IBaseApp.BaseInitialize env app argv).trace) := by
  have hlog : ∀ ev ∈ (IBaseApp.InitializeLogging env
      (env.GetDataDir (env.Init app.cArgs argv).2 false)).2,
      ev.inTryBlock = false ∧ ev ≠ Event.printVersion := by
    simp only [IBaseApp.InitializeLogging]
    split_ifs <;> simp [Event.inTryBlock]
  by_cases hhu : env.IsArgSet (env.Init app.cArgs argv).2 "help" = true ∨
      env.IsArgSet (env.Init app.cArgs argv).2 "usage" = true
  · have hcond : (env.IsArgSet (env.Init app.cArgs argv).2 "help" ||
        env.IsArgSet (env.Init app.cArgs argv).2 "usage") = true := by
      simpa using hhu
    have hout : IBaseApp.BaseInitialize env app argv =
        { ret := false, app := { app with cArgs := (env.Init app.cArgs argv).2 },
          trace := Event.argsInit :: ((IBaseApp.InitializeLogging env
            (env.GetDataDir (env.Init app.cArgs argv).2 false)).2 ++
            [Event.coutHelp (env.GetHelpMessage (env.Init app.cArgs argv).2)]) } := by
      simp [IBaseApp.BaseInitialize, hinit, hcond]
    rw [hout]
    refine ⟨rfl, rfl, ?_, fun _ => ⟨by simp, ?_⟩⟩
    · intro ev hev
      simp only [List.mem_cons, List.mem_append, List.not_mem_nil, or_false] at hev
      rcases hev with hev | hev | hev
      · rw [hev]; rfl
      · exact (hlog ev hev).1
      · rw [hev]; rfl
    · intro hev
      simp only [List.mem_cons, List.mem_append, List.not_mem_nil, or_false] at hev
      rcases hev with hev | hev | hev
      · cases hev
      · exact (hlog _ hev).2 rfl
      · cases hev
  · have hversion : env.IsArgSet (env.Init app.cArgs argv).2 "version" = true := by
      rcases hflag with h | h | h
      · exact absurd (Or.inl h) hhu
      · exact absurd (Or.inr h) hhu
      · exact h
    have hcond : (env.IsArgSet (env.Init app.cArgs argv).2 "help" ||
        env.IsArgSet (env.Init app.cArgs argv).2 "usage") = false := by
      simpa using hhu
    have hout : IBaseApp.BaseInitialize env app argv =
        { ret := false, app := { app with cArgs := (env.Init app.cArgs argv).2 },
          trace := Event.argsInit :: ((IBaseApp.InitializeLogging env
            (env.GetDataDir (env.Init app.cArgs argv).2 false)).2 ++
            [Event.printVersion]) } := by
      simp [IBaseApp.BaseInitialize, hinit, hcond, hversion]
    rw [hout]
    refine ⟨rfl, rfl, ?_, fun h => absurd h hhu⟩
    intro ev hev
    simp only [List.mem_cons, List.mem_append, List.not_mem_nil, or_false] at hev
    rcases hev with hev | hev | hev
    · rw [hev]; rfl
    · exact (hlog ev hev).1
    · rw [hev]; rfl

theorem BaseInitialize_help_version_witness :
    (IBaseApp.BaseInitialize sampleEnv sampleApp ["help", "version", "-chain=other"]).ret =
      false ∧
    Event.printVersion ∉
      (IBaseApp.BaseInitialize sampleEnv sampleApp ["help", "version", "-chain=other"]).trace :=
  ⟨(BaseInitialize_help_version sampleEnv sampleApp ["help", "version", "-chain=other"] rfl
      (Or.inl rfl)).1,
    ((BaseInitialize_help_version sampleEnv sampleApp ["help", "version", "-chain=other"] rfl
      (Or.inl rfl)).2.2.2 (Or.inl rfl)).2⟩

end BootstrapLemmas

end SuperBitcoin
